import Mathlib

/-!
Shallow embedding of the local/remote dual-store synchronization core of the
BarRecipe application (src/app.js, the Firebase-enabled version).

Modelling conventions:
  * A stored record (JS object `{barcode, name, instructions, image, date}`)
    is the structure `Recipe`; the `date` timestamp (`new Date().toISOString()`)
    is modelled as a `Nat` so that timestamps are comparable; the wall clock is
    passed explicitly (`now`, or `clock i` for the i-th write of a loop).
  * The IndexedDB object store keyed on `barcode` (keyPath) is a function
    `String → Option Recipe`.
  * JS settings objects (flat string maps read from localStorage / Firestore)
    are functions `String → Option String`; a field is "present" when `some`.
  * Fallible external effects (Firestore calls, Cloudinary upload, the local
    IndexedDB transaction) are modelled by explicit outcome parameters
    (`remoteFails`, `uploadRes`, `localFails`); `alert(...)` calls are
    collected in an `alerts` list and `console.error(...)` calls in `logs`.
-/

/-- The record stored by `RecipeStore`: `{ barcode, name, instructions, image }`
plus the `date` field that `saveRecipe` assigns on every write. -/
structure Recipe where
  barcode : String
  name : String
  instructions : String
  image : Option String
  date : Nat
deriving DecidableEq

/-- The IndexedDB `recipes` object store, keyed by `barcode` (keyPath). -/
abbrev LocalDB := String → Option Recipe

/-- `RecipeStore.saveRecipe(recipe)` (src/app.js:757-766): sets
`recipe.date = new Date().toISOString()` (here the timestamp `now`) and
`store.put(recipe)` — full replacement of whatever was under `recipe.barcode`. -/
def saveRecipe (db : LocalDB) (recipe : Recipe) (now : Nat) : LocalDB :=
  fun k => if k = recipe.barcode then some { recipe with date := now } else db k

/-- `RecipeStore.getRecipe(barcode)` (src/app.js:768-776): `store.get(barcode)`;
absence resolves to `undefined`, modelled as `none` (never a thrown error). -/
def getRecipe (db : LocalDB) (barcode : String) : Option Recipe :=
  db barcode

/-- `RecipeStore.deleteRecipe(barcode)` (src/app.js:788-796): `store.delete`;
IndexedDB `delete` succeeds whether or not the key is present. -/
def deleteRecipe (db : LocalDB) (barcode : String) : LocalDB :=
  fun k => if k = barcode then none else db k

/-- A flat settings object (localStorage `recipe_scan_settings` or the
Firestore `config/appSettings` document): named string fields. -/
abbrev SettingsMap := String → Option String

/-- JS truthiness of a settings field: present and a non-empty string. -/
def isTruthy (field : Option String) : Bool :=
  match field with
  | none => false
  | some s => s != ""

/-- The object spread `{ ...localSettings, ...cloudSettings }` in
`UI.syncSettingsWithCloud` (src/app.js:1250): every field of the cloud object
overrides the local one; fields only in the local object are retained. -/
def mergeSettings (localS remoteS : SettingsMap) : SettingsMap :=
  fun k =>
    match remoteS k with
    | some v => some v
    | none => localS k

/-- `UI.syncSettingsWithCloud` (src/app.js:1240-1258): fetch cloud settings
(`none` models the Firestore document being absent, in which case nothing is
saved); when present, save the spread-merge locally. The result is the
settings map held locally afterwards. -/
def syncSettingsWithCloud (localS : SettingsMap) (cloudSettings : Option SettingsMap) : SettingsMap :=
  match cloudSettings with
  | some remoteS => mergeSettings localS remoteS
  | none => localS

/-- The configuration bundle passed to `new CloudStore(...)`
(src/app.js:886-895): each field is copied from the saved settings, possibly
absent. -/
structure CloudConfig where
  apiKey : Option String
  authDomain : Option String
  projectId : Option String
  storageBucket : Option String
  messagingSenderId : Option String
  appId : Option String
  measurementId : Option String
  userId : Option String
deriving DecidableEq

/-- `UI.initCloud` (src/app.js:883-901): `this.cloud` is constructed iff
`settings.fbApiKey && settings.fbProjectId && settings.fbAppId &&
settings.fbUserId` are all truthy; otherwise `this.cloud = null` (`none`). -/
def initCloud (s : SettingsMap) : Option CloudConfig :=
  if isTruthy (s "fbApiKey") && isTruthy (s "fbProjectId")
      && isTruthy (s "fbAppId") && isTruthy (s "fbUserId") then
    some { apiKey := s "fbApiKey", authDomain := s "fbAuthDomain",
           projectId := s "fbProjectId", storageBucket := s "fbStorageBucket",
           messagingSenderId := s "fbMessagingSenderId", appId := s "fbAppId",
           measurementId := s "fbMeasurementId", userId := s "fbUserId" }
  else none

/-- The `for (const recipe of cloudRecipes) await this.store.saveRecipe(recipe)`
loop of `UI.syncWithCloud` (src/app.js:1228-1230); `clock i` is the wall-clock
reading taken by the i-th `saveRecipe` call. -/
def syncPuts : LocalDB → List Recipe → (Nat → Nat) → Nat → LocalDB
  | db, [], _, _ => db
  | db, r :: rest, clock, i => syncPuts (saveRecipe db r (clock i)) rest clock (i + 1)

/-- `UI.syncWithCloud` (src/app.js:1220-1238): returns immediately when
`this.cloud` is absent (`none`); otherwise fetches all cloud recipes and
`saveRecipe`s each into the local store. -/
def syncWithCloud (db : LocalDB) (cloud : Option (List Recipe)) (clock : Nat → Nat) : LocalDB :=
  match cloud with
  | none => db
  | some cloudRecipes => syncPuts db cloudRecipes clock 0

/-- Observable outcome of `UI.saveRecipe`: the local store afterwards, whether
a cloud mirror call was issued, whether a Cloudinary upload was attempted,
whether the flow switched back to the home view, and the `console.error` /
`alert` messages produced. -/
structure SaveUIOutcome where
  db : LocalDB
  remoteSaveIssued : Bool
  uploadAttempted : Bool
  switchedHome : Bool
  logs : List String
  alerts : List String

/-- `UI.saveRecipe` (src/app.js:1043-1093). Form fields are the `barcode`,
`name`, `instructions`, `capturedImage` parameters; `uploadRes` is the
Cloudinary outcome when attempted (`some url` success, `none` failure);
`cloudPresent` is `this.cloud !== null`; `localFails` is the IndexedDB put
rejecting; `remoteFails` is the fire-and-forget `cloud.saveRecipe` rejecting
(observed only by its `.catch` logger). -/
def uiSaveRecipe (db : LocalDB) (settings : SettingsMap)
    (barcode name instructions : String) (capturedImage : Option String)
    (uploadRes : Option String) (cloudPresent localFails remoteFails : Bool)
    (now : Nat) : SaveUIOutcome :=
  if name = "" then
    { db := db, remoteSaveIssued := false, uploadAttempted := false,
      switchedHome := false, logs := [], alerts := ["Please enter a name"] }
  else
    let tryUpload : Bool :=
      isTruthy (settings "cloudName") && isTruthy (settings "uploadPreset")
        && (match capturedImage with
            | some img => img.startsWith "data:"
            | none => false)
    let imageUrl : Option String :=
      if tryUpload then
        match uploadRes with
        | some url => some url
        | none => capturedImage
      else capturedImage
    let uploadAlerts : List String :=
      if tryUpload && uploadRes.isNone then
        ["Cloudinary upload failed. Saving image locally instead."]
      else []
    let recipe : Recipe :=
      { barcode := barcode, name := name, instructions := instructions,
        image := imageUrl, date := 0 }
    if localFails then
      { db := db, remoteSaveIssued := false, uploadAttempted := tryUpload,
        switchedHome := false, logs := [],
        alerts := uploadAlerts ++ ["Error saving recipe"] }
    else
      { db := saveRecipe db recipe now,
        remoteSaveIssued := cloudPresent,
        uploadAttempted := tryUpload,
        switchedHome := true,
        logs := if cloudPresent && remoteFails then ["Cloud save failed:"] else [],
        alerts := uploadAlerts ++ ["Recipe saved!"] }

/-- Observable outcome of `UI.confirmDelete`. -/
structure DeleteOutcome where
  db : LocalDB
  remoteDeleteIssued : Bool
  logs : List String
  alerts : List String

/-- `UI.confirmDelete` (src/app.js:1194-1218): on user confirmation, delete
locally; if that succeeds and `this.cloud` is present, issue a fire-and-forget
`cloud.deleteRecipe` whose failure is only logged by its `.catch`. A local
failure is caught and alerted. -/
def confirmDelete (db : LocalDB) (confirmed cloudPresent localFails remoteFails : Bool)
    (barcode : String) : DeleteOutcome :=
  if confirmed then
    if localFails then
      { db := db, remoteDeleteIssued := false, logs := [],
        alerts := ["Failed to delete recipe."] }
    else
      { db := deleteRecipe db barcode,
        remoteDeleteIssued := cloudPresent,
        logs := if cloudPresent && remoteFails then ["Cloud delete failed:"] else [],
        alerts := [] }
  else
    { db := db, remoteDeleteIssued := false, logs := [], alerts := [] }

/-! Concrete fixtures used by the witness theorems. -/

/-- Remote record A in the startup-sync scenario of the spec. -/
def recA : Recipe :=
  { barcode := "k1", name := "Apple Remote", instructions := "r", image := none, date := 5 }

/-- Remote record B in the startup-sync scenario of the spec. -/
def recB : Recipe :=
  { barcode := "k2", name := "Bread", instructions := "", image := none, date := 6 }

/-- Local record A' (same key as A, different title). -/
def recAlocal : Recipe :=
  { barcode := "k1", name := "Apple Local", instructions := "x", image := none, date := 9 }

/-- Local-only record C. -/
def recC : Recipe :=
  { barcode := "k3", name := "Carrot", instructions := "", image := none, date := 7 }

/-- Local store holding {A', C}. -/
def dbLocal : LocalDB :=
  fun k => if k = "k1" then some recAlocal else if k = "k3" then some recC else none

/-- Remote store holding {A, B}. -/
def cloudList : List Recipe := [recA, recB]

/-- A concrete clock for the sync loop. -/
def clock100 : Nat → Nat := fun i => 100 + i

/-- An empty local store. -/
def dbEmpty : LocalDB := fun _ => none

/-- Local settings `{cloudName:"x", fbUserId:"u1"}` from the spec example. -/
def localSet : SettingsMap :=
  fun k => if k = "cloudName" then some "x" else if k = "fbUserId" then some "u1" else none

/-- Remote settings `{cloudName:"y"}` from the spec example. -/
def remoteSet : SettingsMap :=
  fun k => if k = "cloudName" then some "y" else none

/-- A settings map with no fields at all. -/
def noSettings : SettingsMap := fun _ => none

/-! Helper lemmas about the startup-sync put loop. -/

/-- A key matched by no cloud recipe is untouched by the sync put loop. -/
lemma syncPuts_get_not_mem (rs : List Recipe) :
    ∀ (db : LocalDB) (clock : Nat → Nat) (i : Nat) (k : String),
      (∀ r ∈ rs, r.barcode ≠ k) → syncPuts db rs clock i k = db k := by
  induction rs with
  | nil => intro db clock i k _; rfl
  | cons a rest ih =>
    intro db clock i k h
    have hrest : syncPuts (saveRecipe db a (clock i)) rest clock (i + 1) k
        = saveRecipe db a (clock i) k :=
      ih _ _ _ _ (fun r hr => h r (List.mem_cons_of_mem _ hr))
    have ha : k ≠ a.barcode := fun hk => h a (List.mem_cons_self a rest) hk.symm
    show syncPuts (saveRecipe db a (clock i)) rest clock (i + 1) k = db k
    rw [hrest]
    simp [saveRecipe, ha]

/-- When cloud barcodes are pairwise distinct, the sync put loop leaves under
each cloud recipe's key exactly that recipe, with its date replaced by the
clock reading of the write that stored it. -/
lemma syncPuts_get_mem (rs : List Recipe) :
    ∀ (db : LocalDB) (clock : Nat → Nat) (i : Nat) (r : Recipe),
      (rs.map Recipe.barcode).Nodup → r ∈ rs →
      ∃ j, i ≤ j ∧ j < i + rs.length ∧
        syncPuts db rs clock i r.barcode = some { r with date := clock j } := by
  induction rs with
  | nil => intro _ _ _ _ _ hr; simp at hr
  | cons a rest ih =>
    intro db clock i r hnd hr
    rw [List.map_cons] at hnd
    have hnd' := List.nodup_cons.mp hnd
    rcases List.mem_cons.mp hr with h | h
    · subst h
      refine ⟨i, le_refl i, by simp, ?_⟩
      have hrest : ∀ r' ∈ rest, r'.barcode ≠ r.barcode := by
        intro r' hr' heq
        exact hnd'.1 (heq ▸ List.mem_map_of_mem Recipe.barcode hr')
      show syncPuts (saveRecipe db r (clock i)) rest clock (i + 1) r.barcode
          = some { r with date := clock i }
      rw [syncPuts_get_not_mem rest _ clock (i + 1) r.barcode hrest]
      simp [saveRecipe]
    · obtain ⟨j, hij, hlt, hj⟩ := ih (saveRecipe db a (clock i)) clock (i + 1) r hnd'.2 h
      exact ⟨j, by omega, by simp; omega, hj⟩

/-- Claim C3: `LocalStore.put(R)` then `LocalStore.get(R.key)` returns a record
equal to R in every field except `updatedAt` (`date`), which `put` overwrites
to the current time — a timestamp greater than or equal to the time of the put
call (the code reads the clock during the call, so they are equal). -/
theorem local_put_get_roundtrip (db : LocalDB) (r : Recipe) (now : Nat) :
    ∃ r', getRecipe (saveRecipe db r now) r.barcode = some r' ∧
      r'.barcode = r.barcode ∧ r'.name = r.name ∧ r'.instructions = r.instructions ∧
      r'.image = r.image ∧ r'.date = now ∧ now ≤ r'.date := by
  refine ⟨{ r with date := now }, ?_, rfl, rfl, rfl, rfl, rfl, le_refl now⟩
  simp [getRecipe, saveRecipe]

/-- Claim C4: putting R1 and then R2, both keyed by k, leaves under k exactly
the second version (no field-level merge of R1 into R2), and the stored
record's key is still k. -/
theorem local_put_full_replacement (db : LocalDB) (r1 r2 : Recipe) (k : String)
    (t1 t2 : Nat) (h1 : r1.barcode = k) (h2 : r2.barcode = k) :
    getRecipe (saveRecipe (saveRecipe db r1 t1) r2 t2) k = some { r2 with date := t2 } ∧
    ∀ r', getRecipe (saveRecipe (saveRecipe db r1 t1) r2 t2) k = some r' → r'.barcode = k := by
  subst h2
  constructor
  · simp [getRecipe, saveRecipe]
  · intro r' h
    simp [getRecipe, saveRecipe] at h
    subst h
    rfl

/-- Witness for C4 at the concrete records A-local then A-remote, key "k1". -/
theorem local_put_full_replacement_witness :
    getRecipe (saveRecipe (saveRecipe dbEmpty recAlocal 1) recA 2) "k1"
      = some { recA with date := 2 } ∧
    ∀ r', getRecipe (saveRecipe (saveRecipe dbEmpty recAlocal 1) recA 2) "k1" = some r' →
      r'.barcode = "k1" :=
  local_put_full_replacement dbEmpty recAlocal recA "k1" 1 2 rfl rfl

/-- Claim C6: `delete(k)` then `get(k)` returns an explicit "not found"
(`none`, never an exception), and deleting an absent key is a no-op on the
whole store. -/
theorem local_delete_then_get_not_found (db : LocalDB) (k : String) :
    getRecipe (deleteRecipe db k) k = none ∧
    (getRecipe db k = none → ∀ k', getRecipe (deleteRecipe db k) k' = getRecipe db k') := by
  constructor
  · simp [getRecipe, deleteRecipe]
  · intro h k'
    by_cases hk : k' = k
    · subst hk
      simpa [getRecipe, deleteRecipe] using h.symm
    · simp [getRecipe, deleteRecipe, hk]

/-- Witness for C6: delete a key absent from the empty store. -/
theorem local_delete_then_get_not_found_witness :
    getRecipe (deleteRecipe dbEmpty "k9") "k9" = none ∧
    getRecipe (deleteRecipe dbEmpty "k9") "k1" = getRecipe dbEmpty "k1" :=
  ⟨(local_delete_then_get_not_found dbEmpty "k9").1,
   (local_delete_then_get_not_found dbEmpty "k9").2 rfl "k1"⟩

/-- Claim C2: with remote settings present, the startup settings sync saves
the field-level union in which every field present in the remote object takes
the remote value and every field present only locally is retained. -/
theorem sync_settings_field_union_remote_precedence (l r : SettingsMap) :
    (∀ k v, r k = some v → syncSettingsWithCloud l (some r) k = some v) ∧
    (∀ k, r k = none → syncSettingsWithCloud l (some r) k = l k) := by
  constructor
  · intro k v h
    simp [syncSettingsWithCloud, mergeSettings, h]
  · intro k h
    simp [syncSettingsWithCloud, mergeSettings, h]

/-- Witness for C2: local {cloudName:"x", fbUserId:"u1"} merged with remote
{cloudName:"y"} yields {cloudName:"y", fbUserId:"u1"}. -/
theorem sync_settings_field_union_remote_precedence_witness :
    syncSettingsWithCloud localSet (some remoteSet) "cloudName" = some "y" ∧
    syncSettingsWithCloud localSet (some remoteSet) "fbUserId" = some "u1" :=
  ⟨(sync_settings_field_union_remote_precedence localSet remoteSet).1 "cloudName" "y" rfl,
   ((sync_settings_field_union_remote_precedence localSet remoteSet).2 "fbUserId" rfl).trans rfl⟩

/-- Claim C1: with the RemoteStore present, the startup sync puts every remote
record into the LocalStore unconditionally: afterwards every remote key holds
the remote version of the record (regardless of its `updatedAt`, which `put`
refreshes), and every local record whose key is not in the remote set is
unchanged. -/
theorem sync_pull_remote_overwrites_local (db : LocalDB) (rs : List Recipe)
    (clock : Nat → Nat) (hnd : (rs.map Recipe.barcode).Nodup) :
    (∀ r ∈ rs, ∃ j, getRecipe (syncWithCloud db (some rs) clock) r.barcode
        = some { r with date := clock j }) ∧
    (∀ k, (∀ r ∈ rs, r.barcode ≠ k) →
      getRecipe (syncWithCloud db (some rs) clock) k = getRecipe db k) := by
  constructor
  · intro r hr
    obtain ⟨j, _, _, hj⟩ := syncPuts_get_mem rs db clock 0 r hnd hr
    exact ⟨j, hj⟩
  · intro k hk
    exact syncPuts_get_not_mem rs db clock 0 k hk

/-- Witness for C1: the spec scenario — remote {A, B}, local {A', C}; after
sync, key "k1" holds remote A (with refreshed date) and "k3" still holds C. -/
theorem sync_pull_remote_overwrites_local_witness :
    (∃ j, getRecipe (syncWithCloud dbLocal (some cloudList) clock100) recA.barcode
        = some { recA with date := clock100 j }) ∧
    getRecipe (syncWithCloud dbLocal (some cloudList) clock100) "k3" = getRecipe dbLocal "k3" :=
  ⟨(sync_pull_remote_overwrites_local dbLocal cloudList clock100 (by decide)).1 recA (by decide),
   (sync_pull_remote_overwrites_local dbLocal cloudList clock100 (by decide)).2 "k3" (by decide)⟩

/-- Claim C10 (implicit): every record copied from the RemoteStore by the
startup pull is stored with its `date` (updatedAt) set to the local clock
reading of one of the pull's writes — the remote timestamp is overwritten —
while barcode, name, instructions and image are stored unchanged. -/
theorem sync_pull_refreshes_date (db : LocalDB) (rs : List Recipe)
    (clock : Nat → Nat) (r : Recipe)
    (hnd : (rs.map Recipe.barcode).Nodup) (hr : r ∈ rs) :
    ∃ j, j < rs.length ∧ ∃ r',
      getRecipe (syncWithCloud db (some rs) clock) r.barcode = some r' ∧
      r'.date = clock j ∧ r'.barcode = r.barcode ∧ r'.name = r.name ∧
      r'.instructions = r.instructions ∧ r'.image = r.image := by
  obtain ⟨j, _, hlt, hj⟩ := syncPuts_get_mem rs db clock 0 r hnd hr
  exact ⟨j, by omega, { r with date := clock j }, hj, rfl, rfl, rfl, rfl, rfl⟩

/-- Witness for C10 at remote record B of the spec scenario. -/
theorem sync_pull_refreshes_date_witness :
    ∃ j, j < cloudList.length ∧ ∃ r',
      getRecipe (syncWithCloud dbLocal (some cloudList) clock100) recB.barcode = some r' ∧
      r'.date = clock100 j ∧ r'.barcode = recB.barcode ∧ r'.name = recB.name ∧
      r'.instructions = recB.instructions ∧ r'.image = recB.image :=
  sync_pull_refreshes_date dbLocal cloudList clock100 recB (by decide) (by decide)

/-- In `UI.saveRecipe`, when `this.cloud` is absent no remote mirror call is
issued on any path (title guard, local failure, or success). -/
lemma uiSaveRecipe_absent_cloud_no_remote (db : LocalDB) (settings : SettingsMap)
    (barcode name instructions : String) (capturedImage uploadRes : Option String)
    (localFails remoteFails : Bool) (now : Nat) :
    (uiSaveRecipe db settings barcode name instructions capturedImage uploadRes
      false localFails remoteFails now).remoteSaveIssued = false := by
  by_cases hn : name = ""
  · subst hn
    rfl
  · cases localFails <;> simp only [uiSaveRecipe, if_neg hn] <;> rfl

/-- In `UI.confirmDelete`, when `this.cloud` is absent no remote delete is
issued on any path. -/
lemma confirmDelete_absent_cloud_no_remote (db : LocalDB)
    (confirmed localFails remoteFails : Bool) (k : String) :
    (confirmDelete db confirmed false localFails remoteFails k).remoteDeleteIssued = false := by
  cases confirmed <;> cases localFails <;> rfl

/-- Claim C5: when the local put succeeds and the fire-and-forget cloud mirror
call fails, the local store is exactly what it is when the mirror succeeds,
the alerts are identical (the failure is only logged), and the save action
completes ("Recipe saved!", switch to home) regardless. -/
theorem remote_mirror_failure_harmless (db : LocalDB) (settings : SettingsMap)
    (barcode name instructions : String) (capturedImage uploadRes : Option String)
    (cloudPresent : Bool) (now : Nat) (hn : name ≠ "") :
    (uiSaveRecipe db settings barcode name instructions capturedImage uploadRes
        cloudPresent false true now).db
      = (uiSaveRecipe db settings barcode name instructions capturedImage uploadRes
        cloudPresent false false now).db ∧
    (uiSaveRecipe db settings barcode name instructions capturedImage uploadRes
        cloudPresent false true now).alerts
      = (uiSaveRecipe db settings barcode name instructions capturedImage uploadRes
        cloudPresent false false now).alerts ∧
    "Recipe saved!" ∈ (uiSaveRecipe db settings barcode name instructions capturedImage
        uploadRes cloudPresent false true now).alerts ∧
    (uiSaveRecipe db settings barcode name instructions capturedImage uploadRes
        cloudPresent false true now).switchedHome = true ∧
    (cloudPresent = true →
      (uiSaveRecipe db settings barcode name instructions capturedImage uploadRes
        cloudPresent false true now).logs = ["Cloud save failed:"]) := by
  refine ⟨?_, ?_, ?_, ?_, ?_⟩ <;> simp only [uiSaveRecipe, if_neg hn]
  · rfl
  · rfl
  · simp
  · rfl
  · intro h
    subst h
    rfl

/-- Witness for C5 at a concrete save with the cloud present and failing. -/
theorem remote_mirror_failure_harmless_witness :
    (uiSaveRecipe dbEmpty localSet "b1" "Pasta" "steps" none none true false true 42).db
      = (uiSaveRecipe dbEmpty localSet "b1" "Pasta" "steps" none none true false false 42).db ∧
    (uiSaveRecipe dbEmpty localSet "b1" "Pasta" "steps" none none true false true 42).alerts
      = (uiSaveRecipe dbEmpty localSet "b1" "Pasta" "steps" none none true false false 42).alerts ∧
    "Recipe saved!" ∈ (uiSaveRecipe dbEmpty localSet "b1" "Pasta" "steps" none none
        true false true 42).alerts ∧
    (uiSaveRecipe dbEmpty localSet "b1" "Pasta" "steps" none none true false true 42).switchedHome
      = true ∧
    (uiSaveRecipe dbEmpty localSet "b1" "Pasta" "steps" none none true false true 42).logs
      = ["Cloud save failed:"] := by
  have h := remote_mirror_failure_harmless dbEmpty localSet "b1" "Pasta" "steps" none none
    true 42 (by decide)
  exact ⟨h.1, h.2.1, h.2.2.1, h.2.2.2.1, h.2.2.2.2 rfl⟩

/-- Claim C8: an empty title is rejected before any storage write: the local
store is untouched, no remote call and no upload is made, the flow stays in
the entry view, and the only signal is the validation alert. -/
theorem empty_title_save_rejected (db : LocalDB) (settings : SettingsMap)
    (barcode name instructions : String) (capturedImage uploadRes : Option String)
    (cloudPresent localFails remoteFails : Bool) (now : Nat) (hn : name = "") :
    (uiSaveRecipe db settings barcode name instructions capturedImage uploadRes
        cloudPresent localFails remoteFails now).db = db ∧
    (uiSaveRecipe db settings barcode name instructions capturedImage uploadRes
        cloudPresent localFails remoteFails now).remoteSaveIssued = false ∧
    (uiSaveRecipe db settings barcode name instructions capturedImage uploadRes
        cloudPresent localFails remoteFails now).uploadAttempted = false ∧
    (uiSaveRecipe db settings barcode name instructions capturedImage uploadRes
        cloudPresent localFails remoteFails now).switchedHome = false ∧
    (uiSaveRecipe db settings barcode name instructions capturedImage uploadRes
        cloudPresent localFails remoteFails now).alerts = ["Please enter a name"] := by
  subst hn
  exact ⟨rfl, rfl, rfl, rfl, rfl⟩

/-- Witness for C8 at a concrete empty-title save attempt. -/
theorem empty_title_save_rejected_witness :
    (uiSaveRecipe dbLocal localSet "b1" "" "steps" none none true false false 42).db = dbLocal ∧
    (uiSaveRecipe dbLocal localSet "b1" "" "steps" none none true false false 42).remoteSaveIssued
      = false ∧
    (uiSaveRecipe dbLocal localSet "b1" "" "steps" none none true false false 42).uploadAttempted
      = false ∧
    (uiSaveRecipe dbLocal localSet "b1" "" "steps" none none true false false 42).switchedHome
      = false ∧
    (uiSaveRecipe dbLocal localSet "b1" "" "steps" none none true false false 42).alerts
      = ["Please enter a name"] :=
  empty_title_save_rejected dbLocal localSet "b1" "" "steps" none none true false false 42 rfl

/-- Claim C7: a user-confirmed delete with a successful local delete removes
the record from the LocalStore; when the cloud is present a best-effort remote
delete of the same key is issued, and its failure (only logged) neither
changes the resulting store nor raises a user-facing alert. -/
theorem confirmed_delete_local_and_remote (db : LocalDB) (confirmed cloudPresent : Bool)
    (k : String) (hc : confirmed = true) :
    getRecipe (confirmDelete db confirmed cloudPresent false true k).db k = none ∧
    (confirmDelete db confirmed cloudPresent false true k).remoteDeleteIssued = cloudPresent ∧
    (confirmDelete db confirmed cloudPresent false true k).db
      = (confirmDelete db confirmed cloudPresent false false k).db ∧
    (confirmDelete db confirmed cloudPresent false true k).alerts = [] ∧
    (cloudPresent = true →
      (confirmDelete db confirmed cloudPresent false true k).logs = ["Cloud delete failed:"]) := by
  subst hc
  refine ⟨?_, rfl, rfl, rfl, ?_⟩
  · simp [confirmDelete, deleteRecipe, getRecipe]
  · intro h
    subst h
    rfl

/-- Witness for C7: confirmed delete of "k1" from the spec's local store with
the cloud present and the remote delete failing. -/
theorem confirmed_delete_local_and_remote_witness :
    getRecipe (confirmDelete dbLocal true true false true "k1").db "k1" = none ∧
    (confirmDelete dbLocal true true false true "k1").remoteDeleteIssued = true ∧
    (confirmDelete dbLocal true true false true "k1").db
      = (confirmDelete dbLocal true true false false "k1").db ∧
    (confirmDelete dbLocal true true false true "k1").alerts = [] ∧
    (confirmDelete dbLocal true true false true "k1").logs = ["Cloud delete failed:"] := by
  have h := confirmed_delete_local_and_remote dbLocal true true "k1" rfl
  exact ⟨h.1, h.2.1, h.2.2.1, h.2.2.2.1, h.2.2.2.2 rfl⟩

/-- Claim C9: the CloudStore handle is instantiated iff the four required
settings fields (fbApiKey, fbProjectId, fbAppId, fbUserId) are all truthy;
when it is absent (`none`), the callers' presence guards ensure no remote
save, delete, or pull is performed. -/
theorem cloud_instantiated_iff_required_fields (s : SettingsMap) (db : LocalDB)
    (barcode name instructions : String) (capturedImage uploadRes : Option String)
    (confirmed localFails remoteFails : Bool) (k : String) (clock : Nat → Nat) (now : Nat) :
    (initCloud s).isSome
      = (isTruthy (s "fbApiKey") && isTruthy (s "fbProjectId")
          && isTruthy (s "fbAppId") && isTruthy (s "fbUserId")) ∧
    (initCloud s = none →
      (uiSaveRecipe db s barcode name instructions capturedImage uploadRes
        (initCloud s).isSome localFails remoteFails now).remoteSaveIssued = false ∧
      (confirmDelete db confirmed (initCloud s).isSome localFails remoteFails k).remoteDeleteIssued
        = false ∧
      syncWithCloud db none clock = db) := by
  constructor
  · simp only [initCloud]
    cases hb : (isTruthy (s "fbApiKey") && isTruthy (s "fbProjectId")
        && isTruthy (s "fbAppId") && isTruthy (s "fbUserId")) <;> simp [hb]
  · intro h0
    have hs : (initCloud s).isSome = false := by rw [h0]; rfl
    rw [hs]
    exact ⟨uiSaveRecipe_absent_cloud_no_remote db s barcode name instructions capturedImage
        uploadRes localFails remoteFails now,
      confirmDelete_absent_cloud_no_remote db confirmed localFails remoteFails k, rfl⟩

/-- Witness for C9 at settings with no fields: no cloud handle, no remote
calls issued by the save and delete flows, and the pull is a no-op. -/
theorem cloud_instantiated_iff_required_fields_witness :
    (uiSaveRecipe dbEmpty noSettings "b1" "Pasta" "steps" none none
      (initCloud noSettings).isSome false false 42).remoteSaveIssued = false ∧
    (confirmDelete dbEmpty true (initCloud noSettings).isSome false false "k1").remoteDeleteIssued
      = false ∧
    syncWithCloud dbEmpty none clock100 = dbEmpty :=
  (cloud_instantiated_iff_required_fields noSettings dbEmpty "b1" "Pasta" "steps" none none
    true false false "k1" clock100 42).2 rfl
